import Mathlib

/-!
Verification development for the SmartExpenseBot repository
(`bot.py`, `database.py`, `ai_functions.py`, `scheduler.py`,
`handlers/expense_handler.py`, `handlers/income_handler.py`,
`handlers/reminder_handler.py`).

Python strings are modelled as `List Char`; Python floats appearing as
monetary amounts are modelled as rationals (the claims only compare them
to zero and never perform float-specific arithmetic); naive UTC datetimes
are modelled as integer second counts.  Casefolding is modelled for the
ASCII range (`str.upper`/`str.lower` restricted to the basic latin
letters), which covers every alias-table key and pattern keyword the
claims touch.
-/

namespace SmartExpenseBot

/-- Python strings, modelled as lists of characters. -/
abbrev Str := List Char

/-- Coerce a Lean string literal to the `Str` model. -/
def str (s : String) : Str := s.toList

/-- The six ASCII whitespace characters stripped by Python's `str.strip()`
(space, tab, newline, carriage return, vertical tab, form feed). -/
def isWsChar (c : Char) : Bool :=
  c == ' ' || c == '\t' || c == '\n' || c == '\r' ||
  c == Char.ofNat 11 || c == Char.ofNat 12

/-- The 26 lower/upper basic-latin letter pairs: the portion of Python's
`str.upper()` table relevant to the alias keys and keywords in the source. -/
def lowerUpperPairs : List (Char × Char) :=
  [('a', 'A'), ('b', 'B'), ('c', 'C'), ('d', 'D'), ('e', 'E'), ('f', 'F'),
   ('g', 'G'), ('h', 'H'), ('i', 'I'), ('j', 'J'), ('k', 'K'), ('l', 'L'),
   ('m', 'M'), ('n', 'N'), ('o', 'O'), ('p', 'P'), ('q', 'Q'), ('r', 'R'),
   ('s', 'S'), ('t', 'T'), ('u', 'U'), ('v', 'V'), ('w', 'W'), ('x', 'X'),
   ('y', 'Y'), ('z', 'Z')]

/-- Uppercase one character (ASCII model of Python `str.upper()`). -/
def upperChar (c : Char) : Char :=
  match lowerUpperPairs.find? (fun p => p.fst == c) with
  | some p => p.snd
  | none => c

/-- Lowercase one character (ASCII model of Python `str.lower()`). -/
def lowerChar (c : Char) : Char :=
  match lowerUpperPairs.find? (fun p => p.snd == c) with
  | some p => p.fst
  | none => c

/-- Python `s.upper()` on the model. -/
def upperS (l : Str) : Str := l.map upperChar

/-- Python `s.lower()` on the model. -/
def lowerS (l : Str) : Str := l.map lowerChar

/-- Python `s.strip()`: remove leading and trailing whitespace. -/
def trimS (l : Str) : Str :=
  List.rdropWhile isWsChar (List.dropWhile isWsChar l)

/-- The fixed currency alias table shared by `deepseek_ai_expense`
(ai_functions.py lines 119-125), `deepseek_ai_expense_multiple`
(lines 482-488) and `deepseek_ai_income` (lines 700-706): a Python dict,
embedded as an ordered lookup (dict keys are distinct, so order is
irrelevant to `.get`). -/
def aliasTable : List (Str × Str) :=
  [(str "YUAN", str "CNY"), (str "RMB", str "CNY"),
   (['C', 'N', Char.ofNat 165], str "CNY"),
   ([Char.ofNat 165], str "CNY"),
   (str "DOLLAR", str "USD"), (str "DOLLARS", str "USD"),
   (str "$", str "USD"), (str "US$", str "USD"),
   (str "EURO", str "EUR"), (str "EUROS", str "EUR"),
   ([Char.ofNat 8364], str "EUR"),
   (str "RUBLE", str "RUB"), (str "RUBLES", str "RUB"),
   (str "RUBL", str "RUB"), ([Char.ofNat 8381], str "RUB"),
   (str "SOM", str "UZS"),
   (['S', 'O', Char.ofNat 39, 'M'], str "UZS"),
   (str "UZS", str "UZS")]

/-- Dictionary lookup `currency_map.get(currency_raw)` (keys are
distinct, so first-match lookup equals dict access). -/
def currencyAlias (u : Str) : Option Str :=
  (aliasTable.find? (fun kv => kv.fst == u)).map Prod.snd

/-- Currency normalization as performed at ai_functions.py lines 117-126,
481-489 and 699-707: `raw.upper().strip()`, then the alias table, then
pass-through for unmapped strings of length at most 5, else the default. -/
def normalizeCurrency (defaultCur : Str) (raw : Str) : Str :=
  let u := trimS (upperS raw)
  match currencyAlias u with
  | some v => v
  | none => if u.length ≤ 5 then u else defaultCur

/-! ## Storage layer (database.py) -/

/-- The ORM models declared in database.py (class names of the
`Base` subclasses: `User`, `Expense`, `Reminder`). -/
def databaseModels : List Str := [str "User", str "Expense", str "Reminder"]

/-- The methods defined on the `Database` class in database.py
(lines 61-302).  Python resolves `db.<name>` against exactly this set;
an absent name raises `AttributeError` at call time. -/
def databaseMethods : List Str :=
  [str "get_or_create_user", str "update_user_language",
   str "update_user_name", str "update_user_timezone",
   str "update_user_currency", str "add_expense", str "get_expenses",
   str "add_reminder", str "get_pending_reminders",
   str "mark_reminder_sent", str "close"]

/-- Calling a method on the `Database` object: defined methods may run,
an undefined attribute raises (`AttributeError`), modelled as `Except`. -/
def dbCall (name : Str) : Except Unit Unit :=
  if name ∈ databaseMethods then Except.ok () else Except.error ()

/-- Calling a Bool-returning method on the `Database` object: a defined
method returns its result, an undefined attribute raises
(`AttributeError`).  `result` is the value the method would return if it
were defined. -/
def dbCallBool (name : Str) (result : Bool) : Except Unit Bool :=
  if name ∈ databaseMethods then Except.ok result else Except.error ()

/-! ## Expense confirmation (handlers/expense_handler.py) -/

/-- A staged expense item as produced by extraction: the dict
`{amount, currency, category, description}`. -/
structure ExpenseItem where
  amount : ℚ
  currency : Str
  category : Str
  description : Str
deriving DecidableEq, Repr

/-- The value stored in `ExpenseHandler.pending_expenses[user_id]`: the
handler stores a list, but `handle_expense_confirmation` defensively
accepts a bare item and wraps it (`if not isinstance(expenses_list, list)`,
expense_handler.py lines 219-220). -/
inductive PendingExp where
  | one (e : ExpenseItem)
  | many (l : List ExpenseItem)
deriving DecidableEq, Repr

/-- The `isinstance`-wrap at expense_handler.py lines 219-220. -/
def ensureList : PendingExp → List ExpenseItem
  | PendingExp.one e => [e]
  | PendingExp.many l => l

/-- User-visible outcome of `handle_expense_confirmation`. -/
inductive ExpConfirmAction where
  /-- No pending entry: `answer_callback_query` with the error text, return. -/
  | answeredErr
  /-- Confirmed: edit to the saved-count message, then send the main menu. -/
  | confirmedMsg (savedCount : ℕ)
  /-- Rejected: edit the message back to `expense_prompt`. -/
  | rejectedPrompt
deriving DecidableEq, Repr

/-- Result state of one `handle_expense_confirmation` call for one user. -/
structure ExpConfirmResult where
  /-- The `pending_expenses` entry for the user afterwards. -/
  pendingAfter : Option PendingExp
  /-- membership in `active_expense_mode` afterwards. -/
  modeAfter : Bool
  /-- expense records actually persisted by `db.add_expense` (in order). -/
  persisted : List ExpenseItem
  action : ExpConfirmAction
deriving DecidableEq, Repr

/-- Model of `handle_expense_confirmation` (expense_handler.py lines 204-266) for
one user, abstracted over the deterministic persistence outcome
`persistOk` (whether `db.add_expense` succeeds for a given item; a
failure is caught per item at lines 225-234). -/
def handleExpenseConfirmation (pending : Option PendingExp)
    (modeActive : Bool) (confirmed : Bool)
    (persistOk : ExpenseItem → Bool) : ExpConfirmResult :=
  match pending with
  | none =>
    { pendingAfter := none, modeAfter := modeActive, persisted := [],
      action := ExpConfirmAction.answeredErr }
  | some pv =>
    if confirmed then
      let items := ensureList pv
      let saved := items.filter persistOk
      { pendingAfter := none, modeAfter := false, persisted := saved,
        action := ExpConfirmAction.confirmedMsg saved.length }
    else
      { pendingAfter := none, modeAfter := modeActive, persisted := [],
        action := ExpConfirmAction.rejectedPrompt }

/-! ## Income confirmation (handlers/income_handler.py) -/

/-- A pending income item: the dict
`{amount, currency, description, income_type}`. -/
structure IncomeItem where
  amount : ℚ
  currency : Str
  description : Str
  incomeType : Str
deriving DecidableEq, Repr

/-- User-visible outcome of `handle_income_confirm`. -/
inductive IncConfirmAction where
  /-- Saved: edit to `income_confirmed`, send main menu. -/
  | savedMsg
  /-- Persistence raised: `error` message sent (income_handler.py 221-226). -/
  | errorMsg
  /-- Case `confirm_yes` with no pending entry: nothing happens. -/
  | silent
  /-- Case `confirm_no`: edit to the cancellation text, send main menu. -/
  | cancelledMainMenu
deriving DecidableEq, Repr

/-- Result state of one `handle_income_confirm` call for one user. -/
structure IncConfirmResult where
  pendingAfter : Option IncomeItem
  modeAfter : Bool
  /-- how many income records were persisted by this call. -/
  persistedCount : ℕ
  action : IncConfirmAction
deriving DecidableEq, Repr

/-- Model of `handle_income_confirm` (income_handler.py lines 187-241), abstracted
over the persistence call `persist` (the `db.add_income(...)` attempt).
On `confirm_yes` with a pending item the removal of the pending entry and
the mode exit sit INSIDE the `try`, after the persistence call (lines
199-220), so they are skipped when persistence raises. -/
def handleIncomeConfirm (pending : Option IncomeItem) (modeActive : Bool)
    (confirmYes : Bool) (persist : IncomeItem → Except Unit Unit) :
    IncConfirmResult :=
  if confirmYes then
    match pending with
    | some inc =>
      match persist inc with
      | Except.ok _ =>
        { pendingAfter := none, modeAfter := false, persistedCount := 1,
          action := IncConfirmAction.savedMsg }
      | Except.error _ =>
        { pendingAfter := some inc, modeAfter := modeActive,
          persistedCount := 0, action := IncConfirmAction.errorMsg }
    | none =>
      { pendingAfter := none, modeAfter := modeActive, persistedCount := 0,
        action := IncConfirmAction.silent }
  else
    { pendingAfter := none, modeAfter := false, persistedCount := 0,
      action := IncConfirmAction.cancelledMainMenu }

/-- The persistence attempt made by `handle_income_confirm` at
income_handler.py lines 199-205: a call of the attribute `add_income`
on the `Database` object. -/
def incomePersist (_inc : IncomeItem) : Except Unit Unit :=
  dbCall (str "add_income")

/-! ## Multi-item expense extraction (ai_functions.py) -/

/-- The `amount` field of one JSON item as returned by the model:
`item.get("amount", 0)` followed by `float(...)` with fallback `0.0`
(ai_functions.py lines 475-479). -/
inductive JAmount where
  /-- a JSON number (coercible by `float`). -/
  | num (q : ℚ)
  /-- a present but non-numeric value: `float` raises, amount becomes 0.0. -/
  | nonNumeric
  /-- field absent: `.get` default 0. -/
  | absent
deriving DecidableEq, Repr

/-- Value taken by `amount` after lines 475-479. -/
def JAmount.toQ : JAmount → ℚ
  | JAmount.num q => q
  | JAmount.nonNumeric => 0
  | JAmount.absent => 0

/-- One raw item of the model's JSON array, before normalization. -/
structure RawItem where
  amount : JAmount
  currency : Option Str
  category : Option Str
  description : Option Str
deriving DecidableEq, Repr

/-- Per-item normalization loop body of `deepseek_ai_expense_multiple`
(ai_functions.py lines 474-496): amount coercion, currency
normalization with the caller's default, category default `Other`,
description default empty.  Note: no filtering on the amount happens
here — zero-amount items are appended like any other. -/
def normalizeItem (defaultCur : Str) (it : RawItem) : ExpenseItem :=
  { amount := it.amount.toQ,
    currency := normalizeCurrency defaultCur (it.currency.getD defaultCur),
    category := it.category.getD (str "Other"),
    description := it.description.getD [] }

/-- Shape of the model response content after code-fence stripping, as
seen by `json.loads` at ai_functions.py line 466. -/
inductive MultiParse where
  /-- a JSON array of objects. -/
  | arr (l : List RawItem)
  /-- a single JSON object (wrapped into a one-element list, lines 469-470). -/
  | obj (it : RawItem)
  /-- not JSON at all: `json.loads` raises `JSONDecodeError` (line 499). -/
  | failure
  /-- a JSON scalar: wrapping succeeds but `item.get` raises
  `AttributeError`, caught by the outer `except Exception` (line 509),
  which takes the same single-extractor fallback. -/
  | scalarLike
deriving DecidableEq, Repr

/-- Result list of `deepseek_ai_expense_multiple` (ai_functions.py lines
455-512) as a function of the parsed response shape and of the result
`single` the single-item extractor `deepseek_ai_expense` would return on
the same text (used by the fallback at lines 499-503, 509-512: the
single result is wrapped as a one-element list only if its amount is
positive, else the empty list is returned). -/
def multiExtractResult (defaultCur : Str) (parsed : MultiParse)
    (single : ExpenseItem) : List ExpenseItem :=
  match parsed with
  | MultiParse.arr l => l.map (normalizeItem defaultCur)
  | MultiParse.obj it => [normalizeItem defaultCur it]
  | MultiParse.failure => if single.amount > 0 then [single] else []
  | MultiParse.scalarLike => if single.amount > 0 then [single] else []

/-- Staging decision of `handle_expense_message` (expense_handler.py lines
75-84): an empty extraction list shows the error text and returns (no
pending entry, no keyboard); a non-empty list is stored in
`pending_expenses` and the confirm/reject keyboard is shown.  Returns
(pending entry created, keyboard shown). -/
def stageExpenses (expenses : List ExpenseItem) :
    Option (List ExpenseItem) × Bool :=
  if expenses.isEmpty then (none, false) else (some expenses, true)

/-! ## Reminder creation and time validation (handlers/reminder_handler.py) -/

/-- A persisted reminder row (database.py lines 47-58); `sent` is the
0/1 integer flag, `time` the naive-UTC trigger instant in seconds. -/
structure RemRec where
  id : ℕ
  userId : ℕ
  message : Str
  time : ℤ
  createdAt : ℤ
  sent : ℕ
deriving DecidableEq, Repr

/-- Outcome of the tail of `handle_reminder_message` /
`handle_reminder_voice` once a candidate instant has been resolved. -/
inductive ReminderOutcome where
  /-- no time could be parsed: error + prompt again, nothing persisted. -/
  | errorPrompt
  /-- resolved instant not strictly in the future: "Reminder time must be
  in the future." is shown, nothing persisted. -/
  | pastRejected
  /-- Here `db.add_reminder` is called with the resolved instant. -/
  | persistedOk
deriving DecidableEq, Repr

/-- The validation-and-persist tail shared verbatim by
`handle_reminder_message` (reminder_handler.py lines 172-197) and
`handle_reminder_voice` (lines 287-312): given the resolved candidate
instant (naive UTC seconds) and the current UTC time, either reject or
append a new reminder row to the store. -/
def reminderCreate (db : List RemRec) (newId uid : ℕ) (message : Str)
    (remindTime : Option ℤ) (nowUtc : ℤ) : List RemRec × ReminderOutcome :=
  match remindTime with
  | none => (db, ReminderOutcome.errorPrompt)
  | some t =>
    if t ≤ nowUtc then (db, ReminderOutcome.pastRejected)
    else
      (db ++ [{ id := newId, userId := uid, message := message, time := t,
                createdAt := nowUtc, sent := 0 }],
       ReminderOutcome.persistedOk)

/-! ## Scheduler callbacks (scheduler.py) and `mark_reminder_sent` -/

/-- Model of `Database.mark_reminder_sent` (database.py lines 285-297): look up the
first reminder with the given primary key and set its `sent` flag to 1;
no other column is touched, and a missing id is a no-op. -/
def markReminderSent : List RemRec → ℕ → List RemRec
  | [], _ => []
  | r :: rs, rid =>
    if r.id = rid then { r with sent := 1 } :: rs
    else r :: markReminderSent rs rid

/-- Model of `_send_reminder_warning` (scheduler.py lines 92-98): send the warning
message; whether delivery succeeds or raises, the persisted store is
never touched.  Returns (store afterwards, number of messages sent). -/
def sendReminderWarning (db : List RemRec) (deliveryOk : Bool) :
    List RemRec × ℕ :=
  (db, if deliveryOk then 1 else 0)

/-- Model of `_send_reminder_exact` (scheduler.py lines 100-107): send the final
message and, only if delivery did not raise, mark the reminder as sent
(`mark_reminder_sent` is the line after `send_message` inside the same
`try`). -/
def sendReminderExact (db : List RemRec) (rid : ℕ) (deliveryOk : Bool) :
    List RemRec :=
  if deliveryOk then markReminderSent db rid else db

/-! ## Manual time parsing (`_parse_time_manually`, reminder_handler.py
lines 353-432).

A timezone-aware local datetime in a fixed-offset zone is modelled by its
local calendar fields (`day` counts days from an arbitrary day 0;
microseconds are dropped since `replace(..., microsecond=0)` zeroes them
before any of them is compared or stored); conversion to the naive-UTC
storage form subtracts the zone's UTC offset in seconds. -/

/-- A local (timezone-aware) datetime in the user's fixed-offset zone. -/
structure LocalDT where
  day : ℤ
  hour : ℕ
  minute : ℕ
  second : ℕ
deriving DecidableEq, Repr

/-- Seconds since local day 0 midnight; datetime comparison within one
zone compares these. -/
def LocalDT.abs (d : LocalDT) : ℤ :=
  d.day * 86400 + d.hour * 3600 + d.minute * 60 + d.second

/-- Python `.astimezone(timezone.utc).replace(tzinfo=None)` for a fixed-offset
zone: naive UTC seconds. -/
def LocalDT.toUtc (d : LocalDT) (offsetSeconds : ℤ) : ℤ :=
  d.abs - offsetSeconds

/-- Python `.replace(hour=h, minute=m, second=0, microsecond=0)`. -/
def LocalDT.replaceHM (d : LocalDT) (h m : ℕ) : LocalDT :=
  { d with hour := h, minute := m, second := 0 }

/-- Addition of `timedelta(days=n)`. -/
def LocalDT.addDays (d : LocalDT) (n : ℤ) : LocalDT :=
  { d with day := d.day + n }

/-- Render a naive-UTC second count back into calendar-like fields
(day/hour/minute/second), for stating expected instants readably. -/
def secondsToDT (s : ℤ) : LocalDT :=
  { day := s / 86400, hour := (s % 86400).toNat / 3600,
    minute := ((s % 86400).toNat % 3600) / 60,
    second := (s % 86400).toNat % 60 }

/-- The user languages of the bot. -/
inductive Lang where
  | en
  | ru
  | uz
deriving DecidableEq, Repr

/-- One decimal digit. -/
def isDigitChar (c : Char) : Bool := '0' ≤ c ∧ c ≤ '9'

/-- Match a literal at the head of the text, returning the rest. -/
def matchLit : Str → Str → Option Str
  | [], s => some s
  | _ :: _, [] => none
  | a :: as, c :: cs => if a = c then matchLit as cs else none

/-- Pattern `\s+`: require at least one whitespace character, consume the run. -/
def matchWs1 : Str → Option Str
  | [] => none
  | c :: cs =>
    if isWsChar c then some (cs.dropWhile isWsChar) else none

/-- Pattern `(\d+)`: require at least one digit, consume the maximal run and
return its decimal value. -/
def matchDigits1 (s : Str) : Option (ℕ × Str) :=
  match s with
  | [] => none
  | c :: _ =>
    if isDigitChar c then
      let run := s.takeWhile isDigitChar
      some (run.foldl (fun a c => a * 10 + (c.toNat - 48)) 0,
            s.dropWhile isDigitChar)
    else none

/-- Match `word\s+(\d+)\s+unit` at the head of the text (the shape of the
English and Russian relative patterns; the trailing `s?` of `minutes?`
etc. is optional in the regex and does not constrain the match). -/
def matchRelAt (word unit : Str) (s : Str) : Option ℕ :=
  match matchLit word s with
  | none => none
  | some r1 =>
    match matchWs1 r1 with
    | none => none
    | some r2 =>
      match matchDigits1 r2 with
      | none => none
      | some (v, r3) =>
        match matchWs1 r3 with
        | none => none
        | some r4 =>
          match matchLit unit r4 with
          | none => none
          | some _ => some v

/-- Match `(\d+)\s+word\s+tail` at the head of the text (the shape of the
Uzbek relative patterns such as `(\d+)\s+минутдан\s+кейин`). -/
def matchRelUzAt (word tail : Str) (s : Str) : Option ℕ :=
  match matchDigits1 s with
  | none => none
  | some (v, r1) =>
    match matchWs1 r1 with
    | none => none
    | some r2 =>
      match matchLit word r2 with
      | none => none
      | some r3 =>
        match matchWs1 r3 with
        | none => none
        | some r4 =>
          match matchLit tail r4 with
          | none => none
          | some _ => some v

/-- Model of `re.search`: scan for the leftmost position where the head matcher
succeeds. -/
def searchAt (m : Str → Option ℕ) : Str → Option ℕ
  | [] => m []
  | s@(_ :: rest) =>
    match m s with
    | some v => some v
    | none => searchAt m rest

/-- Time units of the relative patterns. -/
inductive TimeUnit where
  | minutes
  | hours
  | days
deriving DecidableEq, Repr

/-- The ordered relative-pattern list of `_parse_time_manually`
(reminder_handler.py lines 364-385): the six English patterns, extended
for Russian or Uzbek. -/
def relativePatterns (lang : Lang) : List ((Str → Option ℕ) × TimeUnit) :=
  [(matchRelAt (str "after") (str "minute"), TimeUnit.minutes),
   (matchRelAt (str "in") (str "minute"), TimeUnit.minutes),
   (matchRelAt (str "after") (str "hour"), TimeUnit.hours),
   (matchRelAt (str "in") (str "hour"), TimeUnit.hours),
   (matchRelAt (str "after") (str "day"), TimeUnit.days),
   (matchRelAt (str "in") (str "day"), TimeUnit.days)] ++
  (match lang with
   | Lang.ru =>
     [(matchRelAt (str "через") (str "минут"), TimeUnit.minutes),
      (matchRelAt (str "через") (str "час"), TimeUnit.hours),
      (matchRelAt (str "через") (str "дн"), TimeUnit.days)]
   | Lang.uz =>
     [(matchRelUzAt (str "минутдан") (str "кейин"), TimeUnit.minutes),
      (matchRelUzAt (str "соатдан") (str "кейин"), TimeUnit.hours),
      (matchRelUzAt (str "кундан") (str "кейин"), TimeUnit.days)]
   | Lang.en => [])

/-- The first relative pattern (in list order) that matches anywhere in
the lowered text, with its captured value (lines 387-402). -/
def findRelative (lang : Lang) (textLower : Str) : Option (ℕ × TimeUnit) :=
  match relativePatterns lang with
  | pats =>
    pats.foldl
      (fun acc pu =>
        match acc with
        | some r => some r
        | none =>
          match searchAt pu.fst textLower with
          | some v => some (v, pu.snd)
          | none => none)
      none

/-- Model of `re.search(r'(\d{1,2}):(\d{2})', text)` (line 405): leftmost match,
preferring two leading digits (regex greediness), requiring a colon and
two digits after it. -/
def clockAt (s : Str) : Option (ℕ × ℕ) :=
  match s with
  | a :: b :: c :: d :: e :: _ =>
    if isDigitChar a ∧ isDigitChar b ∧ c = ':' ∧ isDigitChar d ∧
       isDigitChar e then
      some ((a.toNat - 48) * 10 + (b.toNat - 48),
            (d.toNat - 48) * 10 + (e.toNat - 48))
    else if isDigitChar a ∧ b = ':' ∧ isDigitChar c ∧ isDigitChar d then
      some (a.toNat - 48, (c.toNat - 48) * 10 + (d.toNat - 48))
    else none
  | [a, b, c, d] =>
    if isDigitChar a ∧ b = ':' ∧ isDigitChar c ∧ isDigitChar d then
      some (a.toNat - 48, (c.toNat - 48) * 10 + (d.toNat - 48))
    else none
  | _ => none

/-- Scan the text for the leftmost clock pattern. -/
def findClock : Str → Option (ℕ × ℕ)
  | [] => none
  | s@(_ :: rest) =>
    match clockAt s with
    | some hm => some hm
    | none => findClock rest

/-- Substring test (`kw in text_lower`). -/
def containsSub (kw : Str) : Str → Bool
  | [] => List.isPrefixOf kw []
  | s@(_ :: rest) => List.isPrefixOf kw s || containsSub kw rest

/-- The per-language "tomorrow" keywords (lines 410-418). -/
def tomorrowKeywords (lang : Lang) : List Str :=
  match lang with
  | Lang.uz => [str "ertaga", str "ertasi"]
  | Lang.ru => [str "завтра"]
  | Lang.en => [str "tomorrow"]

/-- Python `any(kw in text_lower for kw in keywords)`. -/
def hasTomorrowKw (lang : Lang) (textLower : Str) : Bool :=
  (tomorrowKeywords lang).any (fun kw => containsSub kw textLower)

/-- The sum `now + timedelta` for the relative branch, expressed directly on the
absolute local second count (the result is immediately converted to UTC). -/
def relTargetSeconds (now : LocalDT) (v : ℕ) (u : TimeUnit) : ℤ :=
  now.abs + (match u with
             | TimeUnit.minutes => (v : ℤ) * 60
             | TimeUnit.hours => (v : ℤ) * 3600
             | TimeUnit.days => (v : ℤ) * 86400)

/-- Model of `_parse_time_manually` (reminder_handler.py lines 353-432) for a
fixed-offset user timezone: returns the naive-UTC second count of the
parsed instant, or `none`.  (Hours above 23 would make Python's
`replace` raise, propagating to the caller's generic error branch; the
claims only exercise in-range hours.) -/
def parseTimeManually (text : Str) (lang : Lang) (offsetSeconds : ℤ)
    (nowLocal : LocalDT) : Option ℤ :=
  let textLower := lowerS text
  match findRelative lang textLower with
  | some (v, u) => some (relTargetSeconds nowLocal v u - offsetSeconds)
  | none =>
    match findClock text with
    | some (h, m) =>
      if hasTomorrowKw lang textLower then
        some (((nowLocal.addDays 1).replaceHM h m).toUtc offsetSeconds)
      else
        let t0 := nowLocal.replaceHM h m
        if t0.abs ≤ nowLocal.abs then
          some ((t0.addDays 1).toUtc offsetSeconds)
        else
          some (t0.toUtc offsetSeconds)
    | none => none

/-! ## Mode router (`text_message_handler`, bot.py lines 489-612).

Per-user session state (the `user_states` dict, the four handler
active-mode sets and the two pending dicts) is modelled keyed by user id.
Collaborator outcomes that the handler merely branches on (feedback /
name-update / custom-donation consumption, country resolution, the
timezone-update call raising) are inputs of the step function. -/

/-- Values of `user_states[user_id]` (`user_states.get(uid, "none")`). -/
inductive UserStateTag where
  | noneTag
  | expense
  | income
  | reminder
deriving DecidableEq, Repr

/-- The in-memory session state the text router reads and writes. -/
structure RouterState where
  userState : ℕ → UserStateTag
  activeExpense : ℕ → Bool
  activeIncome : ℕ → Bool
  activeReport : ℕ → Bool
  activeReminder : ℕ → Bool
  pendingExpense : ℕ → Bool
  pendingIncome : ℕ → Bool

/-- Environment facts the router consults for one message. -/
structure RouterEnv where
  /-- The value `db.user_exists(uid)` (bot.py line 498) would return if
  `Database` defined that method; the router feeds it through
  `dbCallBool`, which raises because `user_exists` is not among the
  methods of `Database` (database.py lines 61-302). -/
  userExists : Bool
  /-- the user's stored timezone (`user.timezone`), empty for unset. -/
  userTimezone : Str
  /-- Whether `about_handler.handle_feedback_message(message)` returned True. -/
  feedbackConsumes : Bool
  /-- Whether `settings_handler.handle_name_update(message)` returned True. -/
  nameUpdateConsumes : Bool
  /-- The `get_timezone_from_country(...)` result (bot.py line 571). -/
  countryResolve : Option Str
  /-- Whether `db.update_user_timezone` raised (bot.py lines 573-585: on the
  exception the handler logs and FALLS THROUGH, no return). -/
  timezoneUpdateRaises : Bool
  /-- Whether `about_handler.handle_custom_donation_input(message)` returned True. -/
  customDonationConsumes : Bool

/-- What `text_message_handler` did with the message. -/
inductive RouterAction where
  | startCmd
  /-- The handler raised `AttributeError` at the `db.user_exists` call
  (bot.py line 498): `Database` defines no `user_exists` method, and the
  call is not inside any try/except, so the exception propagates out of
  `text_message_handler` and the message is dropped with every piece of
  session state unchanged. -/
  | raisedAttributeError
  /-- The `return` at bot.py line 499 for a falsy `user_exists` result —
  present in the source but dead in the program, since the call on the
  line before always raises. -/
  | ignoredDeletedUser
  /-- the back branch (bot.py lines 510-522): all four modes discarded,
  `user_states[uid] = "none"`, main menu replied. -/
  | backReset
  | feedbackConsumed
  | nameUpdateConsumed
  | skipMainMenu
  | enterCountryAck
  | timezoneUpdated (tz : Str)
  | timezoneDetectFailed
  /-- returned at line 594-595 because `uid in pending_expenses`. -/
  | suppressedPendingExpense
  /-- returned at line 596-597 because `uid in pending_incomes`. -/
  | suppressedPendingIncome
  | customDonationConsumed
  | dispatchExpense
  | dispatchIncome
  | dispatchReminder
  | noHandler
deriving DecidableEq, Repr

/-- The three languages' "back" labels (translations.py; bot.py lines
505-509 checks all three regardless of the user's language). -/
def backTexts : List Str :=
  [str "⬅️ Back", str "⬅️ Назад", str "⬅️ Orqaga"]

/-- The three languages' "skip" labels (bot.py lines 533-537). -/
def skipTexts : List Str :=
  [str "Skip", str "Пропустить",
   'O' :: Char.ofNat 39 :: str "tkazib yuborish"]

/-- The three languages' "enter country" labels (bot.py lines 555-559). -/
def enterCountryTexts : List Str :=
  [str "🌍 Enter Country Name", str "🌍 Введите название страны",
   str "🌍 Mamlakat nomini yozing"]

/-- Python `message.text.startswith('/start')` (bot.py line 493). -/
def isStartCmd (text : Str) : Bool := List.isPrefixOf (str "/start") text

/-- Point update of a user-keyed map. -/
def setAt {α : Type} (f : ℕ → α) (uid : ℕ) (v : α) : ℕ → α :=
  fun u => if u = uid then v else f u

/-- The mode-dispatch tail of `text_message_handler` (bot.py lines
593-612): pending-confirmation gates, custom-donation input, then the
mode table. -/
def routerDispatch (env : RouterEnv) (st : RouterState) (uid : ℕ) :
    RouterState × RouterAction :=
  if st.pendingExpense uid then (st, RouterAction.suppressedPendingExpense)
  else if st.pendingIncome uid then (st, RouterAction.suppressedPendingIncome)
  else if env.customDonationConsumes then (st, RouterAction.customDonationConsumed)
  else if st.userState uid = UserStateTag.expense || st.activeExpense uid then
    (st, RouterAction.dispatchExpense)
  else if st.userState uid = UserStateTag.income || st.activeIncome uid then
    (st, RouterAction.dispatchIncome)
  else if st.userState uid = UserStateTag.reminder || st.activeReminder uid then
    (st, RouterAction.dispatchReminder)
  else (st, RouterAction.noHandler)

/-- The body of `text_message_handler` from bot.py line 499 on, given the
value the `db.user_exists` call of line 498 would have produced: branch
order exactly as in the source — deleted-user return, back labels,
feedback, name update, skip labels, the country-for-timezone block (only
when the stored timezone is unset or `UTC` and the state tag is `none`),
then the pending-confirmation gates and mode dispatch.  In the program
none of this runs: the call on line 498 raises first (see `routerStep`). -/
def routerAfterUserCheck (env : RouterEnv) (st : RouterState) (uid : ℕ)
    (text : Str) (userExists : Bool) : RouterState × RouterAction :=
  if !userExists then (st, RouterAction.ignoredDeletedUser)
  else if text ∈ backTexts then
    ({ st with
        activeExpense := setAt st.activeExpense uid false,
        activeIncome := setAt st.activeIncome uid false,
        activeReport := setAt st.activeReport uid false,
        activeReminder := setAt st.activeReminder uid false,
        userState := setAt st.userState uid UserStateTag.noneTag },
     RouterAction.backReset)
  else if env.feedbackConsumes then (st, RouterAction.feedbackConsumed)
  else if env.nameUpdateConsumes then (st, RouterAction.nameUpdateConsumed)
  else if text ∈ skipTexts then (st, RouterAction.skipMainMenu)
  else if (env.userTimezone = [] ∨ env.userTimezone = str "UTC") ∧
          st.userState uid = UserStateTag.noneTag then
    if text ∈ enterCountryTexts then (st, RouterAction.enterCountryAck)
    else if text ∉ backTexts then
      match env.countryResolve with
      | some tz =>
        if env.timezoneUpdateRaises then routerDispatch env st uid
        else (st, RouterAction.timezoneUpdated tz)
      | none => (st, RouterAction.timezoneDetectFailed)
    else routerDispatch env st uid
  else routerDispatch env st uid

/-- Model of `text_message_handler` (bot.py lines 489-612) as a pure step
on the session state: the `/start` check, then the `db.user_exists` call
of line 498 — an attribute that `Database` does not define, so the call
raises `AttributeError` and, with no enclosing try/except, every branch
from line 499 on (including the back-label reset and the
pending-confirmation gates, modelled in `routerAfterUserCheck`) is
unreachable in the program. -/
def routerStep (env : RouterEnv) (st : RouterState) (uid : ℕ)
    (text : Str) : RouterState × RouterAction :=
  if isStartCmd text then (st, RouterAction.startCmd)
  else
    match dbCallBool (str "user_exists") env.userExists with
    | Except.error _ => (st, RouterAction.raisedAttributeError)
    | Except.ok b => routerAfterUserCheck env st uid text b

/-! ## Concrete sample values used in witnesses and counterexamples -/

/-- A concrete staged income item. -/
def sampleIncome : IncomeItem :=
  { amount := 1000, currency := str "USD", description := str "salary",
    incomeType := str "monthly" }

/-- Three concrete expense items. -/
def sampleExp1 : ExpenseItem :=
  { amount := 5, currency := str "USD", category := str "Food",
    description := str "coffee" }

def sampleExp2 : ExpenseItem :=
  { amount := 3, currency := str "USD", category := str "Transport",
    description := str "taxi" }

def sampleExp3 : ExpenseItem :=
  { amount := 7, currency := str "USD", category := str "Other",
    description := str "misc" }

/-- A raw extraction item whose amount is zero. -/
def zeroRawItem : RawItem :=
  { amount := JAmount.num 0, currency := some (str "USD"),
    category := some (str "Food"), description := some (str "coffee") }

/-- A concrete reminder row. -/
def sampleRem : RemRec :=
  { id := 1, userId := 7, message := str "call mom", time := 1000,
    createdAt := 0, sent := 0 }

/-- A concrete router state: user 1 is in expense mode with a pending
expense confirmation. -/
def cexRouterState : RouterState :=
  { userState := fun _ => UserStateTag.expense,
    activeExpense := fun _ => true,
    activeIncome := fun _ => false,
    activeReport := fun _ => false,
    activeReminder := fun _ => false,
    pendingExpense := fun _ => true,
    pendingIncome := fun _ => false }

/-- A concrete router environment: existing user with a set timezone, no
collaborator consuming the message. -/
def cexRouterEnv : RouterEnv :=
  { userExists := true, userTimezone := str "Asia/Tashkent",
    feedbackConsumes := false, nameUpdateConsumes := false,
    countryResolve := none, timezoneUpdateRaises := false,
    customDonationConsumes := false }

/-! # Theorems -/

/-! ## Helper lemmas -/

/-- Filtering a list in which exactly the element at position `k` fails
the predicate keeps exactly `length - 1` elements. -/
theorem filter_length_unique_failure {α : Type} (p : α → Bool) :
    ∀ (l : List α) (k : ℕ) (hk : k < l.length),
      p (l.get ⟨k, hk⟩) = false →
      (∀ j (hj : j < l.length), j ≠ k → p (l.get ⟨j, hj⟩) = true) →
      (l.filter p).length = l.length - 1 := by
  intro l
  induction l with
  | nil => intro k hk _ _; simp at hk
  | cons a t ih =>
    intro k hk hfail hsucc
    cases k with
    | zero =>
      have ha : p a = false := hfail
      have ht : ∀ x ∈ t, p x := by
        intro x hx
        obtain ⟨⟨j, hj⟩, rfl⟩ := List.mem_iff_get.mp hx
        have h := hsucc (j + 1) (by simpa using Nat.succ_lt_succ hj)
          (by omega)
        simpa using h
      rw [List.filter_cons, if_neg (by simp [ha]), List.filter_eq_self.mpr ht]
      simp
    | succ k' =>
      have ha : p a = true := by
        have h := hsucc 0 (by omega) (by omega)
        simpa using h
      have hk' : k' < t.length := by simpa using hk
      have hfail' : p (t.get ⟨k', hk'⟩) = false := by simpa using hfail
      have hsucc' : ∀ j (hj : j < t.length), j ≠ k' →
          p (t.get ⟨j, hj⟩) = true := by
        intro j hj hne
        have h := hsucc (j + 1) (by simpa using Nat.succ_lt_succ hj)
          (by omega)
        simpa using h
      have iht := ih k' hk' hfail' hsucc'
      rw [List.filter_cons, if_pos (by simp [ha])]
      simp only [List.length_cons, iht]
      omega

/-- Unfolding equation for `markReminderSent` on a non-empty store. -/
theorem markReminderSent_cons (r : RemRec) (rs : List RemRec) (rid : ℕ) :
    markReminderSent (r :: rs) rid =
      if r.id = rid then { r with sent := 1 } :: rs
      else r :: markReminderSent rs rid := rfl

/-- Lemma: `markReminderSent` preserves the store's length. -/
theorem markReminderSent_length (db : List RemRec) (rid : ℕ) :
    (markReminderSent db rid).length = db.length := by
  induction db with
  | nil => rfl
  | cons r rs ih =>
    rw [markReminderSent_cons]
    split <;> simp [ih]

/-- Elementwise effect of `markReminderSent`: every row is either
untouched or is the matching row with only its `sent` flag set to 1
(all other columns equal). -/
theorem markReminderSent_getElem (db : List RemRec) (rid : ℕ) :
    ∀ i : ℕ,
      (markReminderSent db rid)[i]? = db[i]? ∨
      (∃ r : RemRec, db[i]? = some r ∧ r.id = rid ∧
        (markReminderSent db rid)[i]? = some { r with sent := 1 }) := by
  induction db with
  | nil => intro i; left; rfl
  | cons r rs ih =>
    intro i
    rw [markReminderSent_cons]
    by_cases hr : r.id = rid
    · rw [if_pos hr]
      cases i with
      | zero => right; exact ⟨r, by simp, hr, by simp⟩
      | succ i' => left; simp
    · rw [if_neg hr]
      cases i with
      | zero => left; simp
      | succ i' =>
        rcases ih i' with h | ⟨x, hx1, hx2, hx3⟩
        · left; simpa using h
        · right; exact ⟨x, by simpa using hx1, hx2, by simpa using hx3⟩

/-- Unfolding equation: confirm=yes on a present pending income reduces
to a case split on the persistence call. -/
theorem handleIncomeConfirm_yes_some (inc : IncomeItem) (modeActive : Bool)
    (persist : IncomeItem → Except Unit Unit) :
    handleIncomeConfirm (some inc) modeActive true persist =
      match persist inc with
      | Except.ok _ =>
        { pendingAfter := none, modeAfter := false, persistedCount := 1,
          action := IncConfirmAction.savedMsg }
      | Except.error _ =>
        { pendingAfter := some inc, modeAfter := modeActive,
          persistedCount := 0, action := IncConfirmAction.errorMsg } := rfl

/-- Unfolding equation: `reminderCreate` with a resolved instant. -/
theorem reminderCreate_some (db : List RemRec) (newId uid : ℕ)
    (message : Str) (t nowUtc : ℤ) :
    reminderCreate db newId uid message (some t) nowUtc =
      if t ≤ nowUtc then (db, ReminderOutcome.pastRejected)
      else
        (db ++ [{ id := newId, userId := uid, message := message, time := t,
                  createdAt := nowUtc, sent := 0 }],
         ReminderOutcome.persistedOk) := rfl

/-! ## C2 -/

/-- C2: the storage layer defines no `Income` model and no `add_income`
operation, so the persistence call made by `handle_income_confirm` on a
confirm=yes resolution always raises; the handler takes its error branch
and the pending income entry (and the active mode) are left in place,
with nothing persisted. -/
theorem c2_income_persist_always_fails
    (pending : Option IncomeItem) (modeActive : Bool) (inc : IncomeItem)
    (h : pending = some inc) :
    (str "add_income") ∉ databaseMethods ∧
    (str "Income") ∉ databaseModels ∧
    incomePersist inc = Except.error () ∧
    handleIncomeConfirm pending modeActive true incomePersist =
      { pendingAfter := some inc, modeAfter := modeActive,
        persistedCount := 0, action := IncConfirmAction.errorMsg } := by
  subst h
  refine ⟨by decide, by decide, rfl, ?_⟩
  rfl

/-- Witness for C2 at a concrete pending income. -/
theorem c2_witness :
    (str "add_income") ∉ databaseMethods ∧
    (str "Income") ∉ databaseModels ∧
    incomePersist sampleIncome = Except.error () ∧
    handleIncomeConfirm (some sampleIncome) true true incomePersist =
      { pendingAfter := some sampleIncome, modeAfter := true,
        persistedCount := 0, action := IncConfirmAction.errorMsg } :=
  c2_income_persist_always_fails (some sampleIncome) true sampleIncome rfl

/-! ## C3 -/

/-- C3: confirming a staged list of N expense items attempts to persist
every item independently; when exactly the item at position k fails
deterministically, exactly N−1 records are persisted and the reported
saved-count is N−1 (and the failure aborts nothing: the pending entry is
still removed and the mode exited). -/
theorem c3_partial_persist_count (items : List ExpenseItem)
    (modeActive : Bool) (persistOk : ExpenseItem → Bool) (k : ℕ)
    (hk : k < items.length)
    (hfail : persistOk (items.get ⟨k, hk⟩) = false)
    (hsucc : ∀ j (hj : j < items.length), j ≠ k →
      persistOk (items.get ⟨j, hj⟩) = true) :
    (handleExpenseConfirmation (some (PendingExp.many items)) modeActive
        true persistOk).persisted.length = items.length - 1 ∧
    (handleExpenseConfirmation (some (PendingExp.many items)) modeActive
        true persistOk).action =
      ExpConfirmAction.confirmedMsg (items.length - 1) ∧
    (handleExpenseConfirmation (some (PendingExp.many items)) modeActive
        true persistOk).pendingAfter = none ∧
    (handleExpenseConfirmation (some (PendingExp.many items)) modeActive
        true persistOk).modeAfter = false := by
  have hlen : (items.filter persistOk).length = items.length - 1 :=
    filter_length_unique_failure persistOk items k hk hfail hsucc
  unfold handleExpenseConfirmation ensureList
  simp [hlen]

/-- Witness for C3: three items, the second one failing. -/
theorem c3_witness :
    (handleExpenseConfirmation
        (some (PendingExp.many [sampleExp1, sampleExp2, sampleExp3])) true
        true (fun e => decide (e ≠ sampleExp2))).persisted.length = 2 ∧
    (handleExpenseConfirmation
        (some (PendingExp.many [sampleExp1, sampleExp2, sampleExp3])) true
        true (fun e => decide (e ≠ sampleExp2))).action =
      ExpConfirmAction.confirmedMsg 2 := by
  have h := c3_partial_persist_count
    [sampleExp1, sampleExp2, sampleExp3] true
    (fun e => decide (e ≠ sampleExp2)) 1 (by decide) (by decide)
    (by decide)
  exact ⟨h.1, h.2.1⟩

/-! ## C4 -/

/-- C4 counterexample: resolving a pending income confirmation with
confirm=yes while the persistence call raises (which, with this
repository's `Database`, it always does) does NOT remove the pending
entry: the claim's "removed unconditionally ... regardless of whether
persistence succeeds" fails at this input. -/
theorem c4_counterexample :
    (handleIncomeConfirm (some sampleIncome) true true
        incomePersist).pendingAfter = some sampleIncome ∧
    ¬ (handleIncomeConfirm (some sampleIncome) true true
        incomePersist).pendingAfter = none := by
  exact ⟨by decide, by decide⟩

/-- C4 amended: after resolving an EXPENSE confirmation (confirm or
reject) the pending entry is removed unconditionally, and on confirm the
expense mode is exited; for INCOME, reject removes the pending entry
(also exiting the mode), while confirm removes the pending entry and
exits the mode only when the persistence call succeeds — when it raises,
the pending entry and the mode are retained. -/
theorem c4_pending_removal_amended :
    (∀ (pending : Option PendingExp) (modeActive confirmed : Bool)
       (persistOk : ExpenseItem → Bool),
      (handleExpenseConfirmation pending modeActive confirmed
          persistOk).pendingAfter = none ∧
      (confirmed = true → pending ≠ none →
        (handleExpenseConfirmation pending modeActive confirmed
            persistOk).modeAfter = false)) ∧
    (∀ (inc : IncomeItem) (modeActive : Bool)
       (persist : IncomeItem → Except Unit Unit),
      (persist inc = Except.ok () →
        (handleIncomeConfirm (some inc) modeActive true
            persist).pendingAfter = none ∧
        (handleIncomeConfirm (some inc) modeActive true
            persist).modeAfter = false) ∧
      (persist inc = Except.error () →
        (handleIncomeConfirm (some inc) modeActive true
            persist).pendingAfter = some inc ∧
        (handleIncomeConfirm (some inc) modeActive true
            persist).modeAfter = modeActive)) ∧
    (∀ (pending : Option IncomeItem) (modeActive : Bool)
       (persist : IncomeItem → Except Unit Unit),
      (handleIncomeConfirm pending modeActive false
          persist).pendingAfter = none ∧
      (handleIncomeConfirm pending modeActive false
          persist).modeAfter = false) := by
  refine ⟨?_, ?_, ?_⟩
  · intro pending modeActive confirmed persistOk
    match pending with
    | none =>
      refine ⟨rfl, ?_⟩
      intro _ hne; exact absurd rfl hne
    | some pv =>
      cases confirmed with
      | false =>
        refine ⟨rfl, ?_⟩
        intro hc _; exact absurd hc (by simp)
      | true => exact ⟨rfl, fun _ _ => rfl⟩
  · intro inc modeActive persist
    constructor
    · intro hok
      rw [handleIncomeConfirm_yes_some, hok]
      exact ⟨rfl, rfl⟩
    · intro herr
      rw [handleIncomeConfirm_yes_some, herr]
      exact ⟨rfl, rfl⟩
  · intro pending modeActive persist
    exact ⟨rfl, rfl⟩

/-- Witness for C4 amended at concrete inputs. -/
theorem c4_witness :
    (handleExpenseConfirmation (some (PendingExp.many [sampleExp1])) true
        true (fun _ => false)).pendingAfter = none ∧
    (handleIncomeConfirm (some sampleIncome) true true
        (fun _ => Except.ok ())).pendingAfter = none ∧
    (handleIncomeConfirm (some sampleIncome) true true
        (fun _ => Except.error ())).pendingAfter = some sampleIncome := by
  refine ⟨(c4_pending_removal_amended.1 (some (PendingExp.many [sampleExp1]))
    true true (fun _ => false)).1, ?_, ?_⟩
  · exact ((c4_pending_removal_amended.2.1 sampleIncome true
      (fun _ => Except.ok ())).1 rfl).1
  · exact ((c4_pending_removal_amended.2.1 sampleIncome true
      (fun _ => Except.error ())).2 rfl).1

/-! ## C5 -/

/-- C5 counterexample: rejecting a pending INCOME confirmation clears the
user's active income mode and shows the cancellation text with the main
menu instead of re-presenting the entry prompt — the claim's "does not
clear the user's active mode" fails at this input. -/
theorem c5_counterexample :
    (handleIncomeConfirm (some sampleIncome) true false
        incomePersist).modeAfter = false ∧
    ¬ (handleIncomeConfirm (some sampleIncome) true false
        incomePersist).modeAfter = true ∧
    (handleIncomeConfirm (some sampleIncome) true false
        incomePersist).action = IncConfirmAction.cancelledMainMenu := by
  exact ⟨by decide, by decide, by decide⟩

/-- C5 amended: resolving with confirm=false persists nothing and leaves
no pending entry, for both handlers; the EXPENSE handler re-presents the
entry prompt and leaves the active mode untouched, while the INCOME
handler instead shows a cancellation message with the main menu and
clears the active income mode. -/
theorem c5_reject_amended :
    (∀ (pv : PendingExp) (modeActive : Bool)
       (persistOk : ExpenseItem → Bool),
      handleExpenseConfirmation (some pv) modeActive false persistOk =
        { pendingAfter := none, modeAfter := modeActive, persisted := [],
          action := ExpConfirmAction.rejectedPrompt }) ∧
    (∀ (pending : Option IncomeItem) (modeActive : Bool)
       (persist : IncomeItem → Except Unit Unit),
      handleIncomeConfirm pending modeActive false persist =
        { pendingAfter := none, modeAfter := false, persistedCount := 0,
          action := IncConfirmAction.cancelledMainMenu }) := by
  constructor
  · intro pv modeActive persistOk; rfl
  · intro pending modeActive persist; rfl

/-- Witness for C5 amended at concrete inputs. -/
theorem c5_witness :
    handleExpenseConfirmation (some (PendingExp.many [sampleExp1])) true
        false (fun _ => true) =
      { pendingAfter := none, modeAfter := true, persisted := [],
        action := ExpConfirmAction.rejectedPrompt } ∧
    handleIncomeConfirm (some sampleIncome) true false incomePersist =
      { pendingAfter := none, modeAfter := false, persistedCount := 0,
        action := IncConfirmAction.cancelledMainMenu } :=
  ⟨c5_reject_amended.1 (PendingExp.many [sampleExp1]) true (fun _ => true),
   c5_reject_amended.2 (some sampleIncome) true incomePersist⟩

/-! ## C6 -/

/-- C6 counterexample: a successfully parsed model response consisting of
one item with amount 0 (an "all-zero-amount model response") does NOT
yield the empty list — the zero-amount item is kept, the handler stages
it as a pending entry and shows the confirm/reject keyboard. -/
theorem c6_counterexample :
    (multiExtractResult (str "USD") (MultiParse.arr [zeroRawItem])
        sampleExp1).length = 1 ∧
    (stageExpenses (multiExtractResult (str "USD")
        (MultiParse.arr [zeroRawItem]) sampleExp1)).1 ≠ none ∧
    (stageExpenses (multiExtractResult (str "USD")
        (MultiParse.arr [zeroRawItem]) sampleExp1)).2 = true := by
  exact ⟨by decide, by decide, by decide⟩

/-- C6 amended: multi-item extraction yields the empty list for an
EMPTY-ARRAY model response; on JSON failure it falls back to the
single-item extractor, wrapping that result as a one-element list only if
its amount is positive and returning the empty list otherwise; items of a
successfully parsed array are kept regardless of amount (so an
all-zero-amount non-empty array yields a non-empty list); and the expense
handler creates a pending entry and shows the confirm/reject keyboard
exactly when the extracted list is non-empty. -/
theorem c6_empty_extraction_amended :
    (∀ (d : Str) (s : ExpenseItem),
      multiExtractResult d (MultiParse.arr []) s = []) ∧
    (∀ (d : Str) (s : ExpenseItem), s.amount ≤ 0 →
      multiExtractResult d MultiParse.failure s = []) ∧
    (∀ (d : Str) (s : ExpenseItem), 0 < s.amount →
      multiExtractResult d MultiParse.failure s = [s]) ∧
    (∀ (d : Str) (l : List RawItem) (s : ExpenseItem),
      (multiExtractResult d (MultiParse.arr l) s).length = l.length) ∧
    (∀ es : List ExpenseItem, es = [] → stageExpenses es = (none, false)) ∧
    (∀ es : List ExpenseItem, es ≠ [] → stageExpenses es = (some es, true)) := by
  refine ⟨fun d s => rfl, ?_, ?_, ?_, ?_, ?_⟩
  · intro d s hs
    unfold multiExtractResult
    rw [if_neg (by exact not_lt.mpr hs)]
  · intro d s hs
    unfold multiExtractResult
    rw [if_pos hs]
  · intro d l s
    unfold multiExtractResult
    exact List.length_map l _
  · intro es hes; subst hes; rfl
  · intro es hes
    unfold stageExpenses
    rw [if_neg (by simpa [List.isEmpty_iff] using hes)]

/-- Witness for C6 amended at concrete inputs. -/
theorem c6_witness :
    multiExtractResult (str "USD") MultiParse.failure
        { sampleExp1 with amount := 0 } = [] ∧
    multiExtractResult (str "USD") MultiParse.failure sampleExp1 =
      [sampleExp1] ∧
    stageExpenses ([] : List ExpenseItem) = (none, false) ∧
    stageExpenses [sampleExp1] = (some [sampleExp1], true) :=
  ⟨c6_empty_extraction_amended.2.1 (str "USD")
      { sampleExp1 with amount := 0 } (by decide),
   c6_empty_extraction_amended.2.2.1 (str "USD") sampleExp1 (by decide),
   c6_empty_extraction_amended.2.2.2.2.1 [] rfl,
   c6_empty_extraction_amended.2.2.2.2.2 [sampleExp1] (by decide)⟩

/-! ## C7 -/

/-- C7: a resolved trigger instant equal to or earlier than the current
UTC time is rejected with the user-visible "must be in the future" error
and nothing is persisted; every reminder row present after a
creation attempt either was already in the store or has a trigger instant
strictly after the current UTC time. -/
theorem c7_no_past_reminder (db : List RemRec) (newId uid : ℕ)
    (message : Str) (remindTime : Option ℤ) (nowUtc : ℤ) :
    (∀ t : ℤ, remindTime = some t → t ≤ nowUtc →
      reminderCreate db newId uid message remindTime nowUtc =
        (db, ReminderOutcome.pastRejected)) ∧
    (∀ r : RemRec,
      r ∈ (reminderCreate db newId uid message remindTime nowUtc).1 →
      r ∈ db ∨ nowUtc < r.time) := by
  constructor
  · intro t ht hle
    subst ht
    rw [reminderCreate_some, if_pos hle]
  · intro r hr
    match remindTime with
    | none => exact Or.inl hr
    | some t =>
      rw [reminderCreate_some] at hr
      by_cases hle : t ≤ nowUtc
      · rw [if_pos hle] at hr
        exact Or.inl hr
      · rw [if_neg hle] at hr
        rcases List.mem_append.mp hr with h | h
        · exact Or.inl h
        · right
          have hre : r =
              { id := newId, userId := uid, message := message,
                time := t, createdAt := nowUtc, sent := 0 } := by
            simpa using h
          subst hre
          exact lt_of_not_le hle

/-- Witness for C7 at concrete inputs: a past instant is rejected and a
future one yields only future rows. -/
theorem c7_witness :
    reminderCreate [sampleRem] 2 7 (str "x") (some 50) 100 =
      ([sampleRem], ReminderOutcome.pastRejected) ∧
    (∀ r : RemRec, r ∈ (reminderCreate [sampleRem] 2 7 (str "x")
        (some 200) 100).1 → r ∈ [sampleRem] ∨ (100 : ℤ) < r.time) :=
  ⟨(c7_no_past_reminder [sampleRem] 2 7 (str "x") (some 50) 100).1 50 rfl
      (by decide),
   (c7_no_past_reminder [sampleRem] 2 7 (str "x") (some 200) 100).2⟩

/-! ## C9 -/

/-- C9: the warning callback never mutates the persisted store; only the
exact-time callback, and only upon successful delivery, marks the
reminder as sent, and marking as sent changes no field other than the
`sent` flag of the matching row. -/
theorem c9_warning_frame :
    (∀ (db : List RemRec) (deliveryOk : Bool),
      (sendReminderWarning db deliveryOk).1 = db) ∧
    (∀ (db : List RemRec) (rid : ℕ),
      sendReminderExact db rid false = db) ∧
    (∀ (db : List RemRec) (rid : ℕ),
      sendReminderExact db rid true = markReminderSent db rid) ∧
    (∀ (db : List RemRec) (rid : ℕ),
      (markReminderSent db rid).length = db.length) ∧
    (∀ (db : List RemRec) (rid : ℕ) (i : ℕ),
      (markReminderSent db rid)[i]? = db[i]? ∨
      (∃ r : RemRec, db[i]? = some r ∧ r.id = rid ∧
        (markReminderSent db rid)[i]? = some { r with sent := 1 })) :=
  ⟨fun _ _ => rfl, fun _ _ => rfl, fun _ _ => rfl,
   markReminderSent_length, fun db rid i => markReminderSent_getElem db rid i⟩

/-! ## C1 -/

/-- C1 counterexample: with a pending expense confirmation for user 1,
the message "⬅️ Back" never reaches the pending-confirmation gate OR the
back-button mode reset: `text_message_handler` raises `AttributeError` at
the `db.user_exists` call of bot.py line 498 (`Database` defines no such
method) before either branch.  The router's outcome is the exception
abort — not the pending suppression the claim requires to dominate, and
not the back reset either — so pending-confirmation precedence does not
dominate the handling of that message. -/
theorem c1_counterexample :
    (routerStep cexRouterEnv cexRouterState 1 (str "⬅️ Back")).2 =
      RouterAction.raisedAttributeError ∧
    (routerStep cexRouterEnv cexRouterState 1 (str "⬅️ Back")).2 ≠
      RouterAction.suppressedPendingExpense ∧
    (routerStep cexRouterEnv cexRouterState 1 (str "⬅️ Back")).2 ≠
      RouterAction.backReset ∧
    (routerStep cexRouterEnv cexRouterState 1
        (str "⬅️ Back")).1.activeExpense 1 = true ∧
    (routerStep cexRouterEnv cexRouterState 1
        (str "⬅️ Back")).1.pendingExpense 1 = true := by
  refine ⟨?_, ?_, ?_, ?_, ?_⟩ <;> decide

/-- C1 amended: for a user with a pending expense confirmation, a text
message equal to any of the three languages' back labels (like every
non-`/start` text message) is aborted by an `AttributeError` at the
`db.user_exists` check of bot.py line 498, which runs before both the
back-button mode reset and the pending-confirmation gate: neither
executes, and every piece of session state — the pending entry, the four
active-mode memberships and the state tag — is left unchanged.  In
particular the pending entry is not cleared and remains until it is
resolved via the confirm/reject callback, though by the abort rather
than by pending-confirmation precedence. -/
theorem c1_back_unreachable_pending_preserved (env : RouterEnv)
    (st : RouterState) (uid : ℕ) (text : Str)
    (hback : text ∈ backTexts)
    (hpend : st.pendingExpense uid = true) :
    (str "user_exists") ∉ databaseMethods ∧
    (routerStep env st uid text).2 = RouterAction.raisedAttributeError ∧
    (routerStep env st uid text).1 = st ∧
    (routerStep env st uid text).1.pendingExpense uid = true ∧
    (routerStep env st uid text).1.activeExpense uid =
      st.activeExpense uid ∧
    (routerStep env st uid text).1.userState uid = st.userState uid := by
  have hstart : isStartCmd text = false := by
    fin_cases hback <;> decide
  have herr : dbCallBool (str "user_exists") env.userExists =
      Except.error () := by
    unfold dbCallBool
    rw [if_neg (by decide)]
  have hroute : routerStep env st uid text =
      (st, RouterAction.raisedAttributeError) := by
    unfold routerStep
    rw [hstart]
    simp only [Bool.false_eq_true, if_false, herr]
  rw [hroute]
  exact ⟨by decide, rfl, rfl, hpend, rfl, rfl⟩

/-- Witness for C1 amended at a concrete pending state. -/
theorem c1_witness :
    (routerStep cexRouterEnv cexRouterState 7 (str "⬅️ Назад")).2 =
      RouterAction.raisedAttributeError ∧
    (routerStep cexRouterEnv cexRouterState 7
        (str "⬅️ Назад")).1.pendingExpense 7 = true ∧
    (routerStep cexRouterEnv cexRouterState 7
        (str "⬅️ Назад")).1.activeExpense 7 =
      cexRouterState.activeExpense 7 := by
  have h := c1_back_unreachable_pending_preserved cexRouterEnv
    cexRouterState 7 (str "⬅️ Назад") (by decide) rfl
  exact ⟨h.2.1, h.2.2.2.1, h.2.2.2.2.1⟩

/-! ## C8 -/

/-- C8: in manual time parsing, when no relative pattern matches, an
absolute clock time H:MM or HH:MM is found, the text carries no
"tomorrow" keyword for the user's language, and the clock time has
already passed today (local), the target rolls forward one day and is
stored as that local instant converted to naive UTC. -/
theorem c8_clock_rolls_forward (text : Str) (lang : Lang)
    (offsetSeconds : ℤ) (nowLocal : LocalDT) (h m : ℕ)
    (h1 : findRelative lang (lowerS text) = none)
    (h2 : findClock text = some (h, m))
    (h3 : hasTomorrowKw lang (lowerS text) = false)
    (h4 : (nowLocal.replaceHM h m).abs ≤ nowLocal.abs) :
    parseTimeManually text lang offsetSeconds nowLocal =
      some (((nowLocal.replaceHM h m).addDays 1).toUtc offsetSeconds) := by
  unfold parseTimeManually
  simp only [h1, h2, h3, Bool.false_eq_true, if_false, if_pos h4]

/-- Witness for C8: user timezone UTC+5 (Asia/Tashkent), local now
2024-01-01T10:00:00 (day 0 := 2024-01-01), input "at 09:00": resolves to
09:00 local on the next day, stored as naive UTC 100800 s =
2024-01-02T04:00:00. -/
theorem c8_witness :
    parseTimeManually (str "at 09:00") Lang.en (5 * 3600) ⟨0, 10, 0, 0⟩ =
      some 100800 ∧
    secondsToDT 100800 = ⟨1, 4, 0, 0⟩ :=
  ⟨(c8_clock_rolls_forward (str "at 09:00") Lang.en (5 * 3600)
      ⟨0, 10, 0, 0⟩ 9 0 (by decide) (by decide) (by decide)
      (by decide)).trans (by decide),
   by decide⟩

/-! ## C10 -/

/-- Lemma: `upperChar` is idempotent. -/
theorem upperChar_idem (c : Char) : upperChar (upperChar c) = upperChar c := by
  cases hf : lowerUpperPairs.find? (fun p => p.fst == c) with
  | none =>
    have h1 : upperChar c = c := by unfold upperChar; rw [hf]
    rw [h1]
    exact h1
  | some p =>
    have h1 : upperChar c = p.snd := by unfold upperChar; rw [hf]
    rw [h1]
    have hmem : p ∈ lowerUpperPairs := List.mem_of_find?_eq_some hf
    fin_cases hmem <;> decide

/-- Lemma: `upperChar` maps whitespace to whitespace and non-whitespace to
non-whitespace. -/
theorem isWs_upperChar (c : Char) : isWsChar (upperChar c) = isWsChar c := by
  cases hf : lowerUpperPairs.find? (fun p => p.fst == c) with
  | none =>
    have h1 : upperChar c = c := by unfold upperChar; rw [hf]
    rw [h1]
  | some p =>
    have h1 : upperChar c = p.snd := by unfold upperChar; rw [hf]
    rw [h1]
    have hc : p.fst = c := by
      have hp := List.find?_some hf
      simpa using hp
    subst hc
    have hmem : p ∈ lowerUpperPairs := List.mem_of_find?_eq_some hf
    fin_cases hmem <;> decide

/-- Lemma: `upperS` is idempotent. -/
theorem upperS_idem (l : Str) : upperS (upperS l) = upperS l := by
  unfold upperS
  rw [List.map_map]
  apply List.map_congr_left
  intro a _
  exact upperChar_idem a

/-- Lemma: `dropWhile isWsChar` commutes with `upperS`. -/
theorem dropWhile_upperS (l : Str) :
    List.dropWhile isWsChar (upperS l) =
      upperS (List.dropWhile isWsChar l) := by
  induction l with
  | nil => rfl
  | cons a t ih =>
    simp only [upperS] at ih ⊢
    cases h : isWsChar a with
    | true =>
      have h2 : isWsChar (upperChar a) = true := (isWs_upperChar a).trans h
      simp [List.map_cons, List.dropWhile_cons, h, h2, ih]
    | false =>
      have h2 : isWsChar (upperChar a) = false := (isWs_upperChar a).trans h
      simp [List.map_cons, List.dropWhile_cons, h, h2]

/-- Lemma: `rdropWhile isWsChar` commutes with `upperS`. -/
theorem rdropWhile_upperS (l : Str) :
    List.rdropWhile isWsChar (upperS l) =
      upperS (List.rdropWhile isWsChar l) := by
  unfold List.rdropWhile
  have hrev : (upperS l).reverse = upperS l.reverse := by
    simp [upperS, List.map_reverse]
  rw [hrev, dropWhile_upperS]
  simp [upperS, List.map_reverse]

/-- Lemma: `trimS` commutes with `upperS`. -/
theorem trimS_upperS (l : Str) : trimS (upperS l) = upperS (trimS l) := by
  unfold trimS
  rw [dropWhile_upperS, rdropWhile_upperS]

/-- Lemma: `trimS` is idempotent. -/
theorem trimS_idem (l : Str) : trimS (trimS l) = trimS l := by
  unfold trimS
  have hfix : List.dropWhile isWsChar (List.dropWhile isWsChar l) =
      List.dropWhile isWsChar l := List.dropWhile_idempotent isWsChar l
  have hA : List.dropWhile isWsChar
      (List.rdropWhile isWsChar (List.dropWhile isWsChar l)) =
      List.rdropWhile isWsChar (List.dropWhile isWsChar l) := by
    cases hrd : List.rdropWhile isWsChar (List.dropWhile isWsChar l) with
    | nil => rfl
    | cons x xs =>
      obtain ⟨t, ht⟩ :=
        List.rdropWhile_prefix isWsChar (List.dropWhile isWsChar l)
      rw [hrd] at ht
      have hx : isWsChar x = false := by
        have h2 := hfix
        rw [← ht, List.cons_append, List.dropWhile_cons] at h2
        cases hxx : isWsChar x with
        | true =>
          rw [if_pos (by rw [hxx])] at h2
          have hlen := congrArg List.length h2
          have hle : (List.dropWhile isWsChar (xs ++ t)).length ≤
              (xs ++ t).length :=
            (List.dropWhile_suffix isWsChar).length_le
          simp [List.length_append] at hlen hle
          omega
        | false => rfl
      rw [List.dropWhile_cons, if_neg (by rw [hx]; exact Bool.false_ne_true)]
  rw [hA]
  exact List.rdropWhile_idempotent isWsChar _

/-- The canonicalisation `trimS ∘ upperS` is idempotent. -/
theorem canon_fix (l : Str) :
    trimS (upperS (trimS (upperS l))) = trimS (upperS l) := by
  calc trimS (upperS (trimS (upperS l)))
      = trimS (upperS (upperS (trimS l))) := by rw [trimS_upperS l]
    _ = trimS (upperS (trimS l)) := by rw [upperS_idem]
    _ = upperS (trimS (trimS l)) := trimS_upperS _
    _ = upperS (trimS l) := by rw [trimS_idem]
    _ = trimS (upperS l) := (trimS_upperS l).symm

/-- A string that is already canonical, unmapped and short normalizes to
itself. -/
theorem normalizeCurrency_fixed (d v : Str) (h1 : trimS (upperS v) = v)
    (h2 : currencyAlias v = none) (h3 : v.length ≤ 5) :
    normalizeCurrency d v = v := by
  unfold normalizeCurrency
  simp only [h1, h2, if_pos h3]

/-- A canonical string that the alias table maps to itself (the key
`UZS`) normalizes to itself. -/
theorem normalizeCurrency_selfAlias (d v : Str) (h1 : trimS (upperS v) = v)
    (h2 : currencyAlias v = some v) : normalizeCurrency d v = v := by
  unfold normalizeCurrency
  simp only [h1, h2]

/-- Every value of the alias table is a fixed point of the
normalization. -/
theorem currencyAlias_value_fixed (d u v : Str)
    (h : currencyAlias u = some v) : normalizeCurrency d v = v := by
  unfold currencyAlias at h
  cases hf : aliasTable.find? (fun kv => kv.fst == u) with
  | none => rw [hf] at h; exact Option.noConfusion h
  | some kv =>
    rw [hf] at h
    have hv : kv.snd = v := by simpa using h
    subst hv
    have hmem : kv ∈ aliasTable := List.mem_of_find?_eq_some hf
    fin_cases hmem <;>
      first
        | exact normalizeCurrency_fixed d _ (by decide) (by decide)
            (by decide)
        | exact normalizeCurrency_selfAlias d _ (by decide) (by decide)

/-- C10: currency normalization (uppercase and trim, alias table,
pass-through for unmapped strings of length at most 5, default for longer
ones) is idempotent: for every raw string, normalizing the normalization's
own output returns it unchanged.  The hypothesis states that the
configured default is itself normalization-stable, which holds for the
literal default "USD" of the expense paths and for every currency code
offered by the currency keyboard. -/
theorem c10_normalize_idempotent (d raw : Str)
    (hd : normalizeCurrency d d = d) :
    normalizeCurrency d (normalizeCurrency d raw) =
      normalizeCurrency d raw := by
  cases hA : currencyAlias (trimS (upperS raw)) with
  | some v =>
    have h1 : normalizeCurrency d raw = v := by
      unfold normalizeCurrency; simp only [hA]
    rw [h1]
    exact currencyAlias_value_fixed d _ v hA
  | none =>
    by_cases hl : (trimS (upperS raw)).length ≤ 5
    · have h1 : normalizeCurrency d raw = trimS (upperS raw) := by
        unfold normalizeCurrency; simp only [hA, if_pos hl]
      rw [h1]
      unfold normalizeCurrency
      simp only [canon_fix, hA, if_pos hl]
    · have h1 : normalizeCurrency d raw = d := by
        unfold normalizeCurrency; simp only [hA, if_neg hl]
      rw [h1]
      exact hd

/-- Witness for C10 with default "USD" (the literal default of the
expense extraction paths) and the raw string " dollars ". -/
theorem c10_witness :
    normalizeCurrency (str "USD") (str "USD") = str "USD" ∧
    normalizeCurrency (str "USD")
        (normalizeCurrency (str "USD") (str " dollars ")) =
      normalizeCurrency (str "USD") (str " dollars ") :=
  ⟨by decide,
   c10_normalize_idempotent (str "USD") (str " dollars ") (by decide)⟩

end SmartExpenseBot
